import Mathlib

/-!
Verification development for the Keithley 648x/6485 asyn port drivers
(src/k6485App/src/drvAsynKeithley6485.cpp and
src/k648xApp/src/drvAsynKeithley648x.cpp).

The drivers are shallowly embedded: C strings become Lean String/List Char,
C doubles become exact fractions (`Frac`, an unnormalized Int pair — every
numeric literal the driver handles is an exact decimal, so no rounding is
lost), and each handler becomes a pure function from the prior port state and
the transport outcome of its exchange to an asyn status plus the new state.
C undefined behaviour (null dereference, use of an indeterminate value) is
made explicit as the `CRes.undefB` outcome.
-/

namespace Keithley

/-! C character and string primitives used by the drivers:
isspace/isdigit (ASCII), strchr, the strtok-style comma splitting done by
epicsStrtok_r, and the atof/atoi conversions. All recursion is structural
so that concrete evaluations reduce in the kernel. -/

def isSpaceC (c : Char) : Bool :=
  c = ' ' || c = '\t' || c = '\n' || c = '\r'

def isDigitC (c : Char) : Bool :=
  decide ('0' ≤ c) && decide (c ≤ '9')

/-- digitsAcc consumes a maximal run of decimal digits, returning the value
accumulated onto `acc`, the count of digits consumed added to `n`, and the
rest of the input. -/
def digitsAcc : List Char → Nat → Nat → (Nat × Nat × List Char)
  | [], acc, n => (acc, n, [])
  | c :: cs, acc, n =>
    if isDigitC c then digitsAcc cs (10 * acc + (c.toNat - 48)) (n + 1)
    else (acc, n, c :: cs)

/-- parseSign consumes an optional leading + or - sign. -/
def parseSign : List Char → (Int × List Char)
  | '-' :: cs => (-1, cs)
  | '+' :: cs => (1, cs)
  | cs => (1, cs)

/-- strchrAfter models `p = strchr(s, c); p++`: the characters strictly after
the first occurrence of `c`, or none when `strchr` returns NULL. -/
def strchrAfter : List Char → Char → Option (List Char)
  | [], _ => none
  | c :: cs, t => if c = t then some cs else strchrAfter cs t

/-- strchrSplit models the driver idiom `p = strchr(s, c); *p = 0; p++`:
the text before the first occurrence of `c` and the text after it, or none
when `c` does not occur (strchr returns NULL). -/
def strchrSplit : List Char → Char → Option (List Char × List Char)
  | [], _ => none
  | c :: cs, t =>
    if c = t then some ([], cs)
    else
      match strchrSplit cs t with
      | none => none
      | some (pre, post) => some (c :: pre, post)

/-- splitOnCharAux splits a character list at every occurrence of the
delimiter, keeping empty pieces; `cur` is the (reversed) piece in progress. -/
def splitOnCharAux (d : Char) : List Char → List Char → List (List Char)
  | [], cur => [cur.reverse]
  | c :: cs, cur =>
    if c = d then cur.reverse :: splitOnCharAux d cs []
    else splitOnCharAux d cs (c :: cur)

/-- strtokList models repeated epicsStrtok_r calls with a one-character
delimiter set: maximal nonempty runs between delimiters, in order. -/
def strtokList (cs : List Char) (d : Char) : List (List Char) :=
  (splitOnCharAux d cs []).filter (fun t => t ≠ [])

/-! Exact fractions standing in for the C doubles. The driver only ever
produces and compares exact decimal values (ASCII decimal input, the
constants 6.0, 1.0, 0.1 and thresholds 1.0, 0.1), so an exact rational
model loses nothing. `den` is positive for every value built here, which
the cross-multiplication comparison below relies on. The representation is
not normalized; theorems compare values produced by the same computations
or with the representation spelled out. -/

structure Frac where
  num : Int
  den : Int
deriving Repr, DecidableEq

instance : LT Frac := ⟨fun a b => a.num * b.den < b.num * a.den⟩

instance (a b : Frac) : Decidable (a < b) :=
  inferInstanceAs (Decidable (a.num * b.den < b.num * a.den))

def Frac.ofInt (n : Int) : Frac := ⟨n, 1⟩

/-- Frac.isZero models the C comparison `val == 0.0`. -/
def Frac.isZero (a : Frac) : Bool := a.num = 0

/-- truncFrac models the C cast `(int) val`: truncation toward zero. -/
def truncFrac (a : Frac) : Int := a.num.tdiv a.den

/-- parseExpPart parses the optional `e`/`E` exponent suffix accepted by
atof; as in strtod, an exponent letter not followed by a digit contributes
nothing. -/
def parseExpPart (cs : List Char) : Int :=
  match cs with
  | c :: rest =>
    if c = 'e' || c = 'E' then
      let (sg, rest2) := parseSign rest
      let (v, n, _) := digitsAcc rest2 0 0
      if n = 0 then 0 else sg * v
    else 0
  | [] => 0

/-- scalePow10 multiplies a fraction by 10^e, keeping the denominator
positive. -/
def scalePow10 (a : Frac) (e : Int) : Frac :=
  match e with
  | .ofNat k => ⟨a.num * 10 ^ k, a.den⟩
  | .negSucc k => ⟨a.num, a.den * 10 ^ (k + 1)⟩

/-- atofChars models C atof/strtod on the byte strings the device sends:
optional whitespace, optional sign, digits with an optional fractional
part, optional exponent; trailing junk is ignored and a wholly
unconvertible string yields 0.0. -/
def atofChars (cs0 : List Char) : Frac :=
  let cs1 := cs0.dropWhile isSpaceC
  let (sg, cs2) := parseSign cs1
  let (ip, n1, cs3) := digitsAcc cs2 0 0
  let (fp, n2, cs4) :=
    match cs3 with
    | '.' :: rest => digitsAcc rest 0 0
    | _ => (0, 0, cs3)
  if n1 = 0 && n2 = 0 then ⟨0, 1⟩
  else scalePow10 ⟨sg * (ip * 10 ^ n2 + fp), 10 ^ n2⟩ (parseExpPart cs4)

/-- atoiChars models C atoi: optional whitespace, optional sign, leading
digits; no digits yields 0. -/
def atoiChars (cs0 : List Char) : Int :=
  let cs1 := cs0.dropWhile isSpaceC
  let (sg, cs2) := parseSign cs1
  let (v, _, _) := digitsAcc cs2 0 0
  sg * v

def atof (s : String) : Frac := atofChars s.data

def atoi (s : String) : Int := atoiChars s.data

/-! Device state: the Port struct of both drivers. The asyn plumbing fields
(asynUser pointers and so on) and the eom out-parameter cell are not part
of the modelled state; identification fields are the five substrings the
setup code splits out of the *IDN? reply. `init` is the C int used as a
boolean ready flag, `devtype` the 648x variant tag (1 = 6485, 2 = 6487,
0 = DEV_ALL which is rejected at construction). -/

structure Stats where
  ioErrors : Nat
  writeReads : Nat
  writeOnlys : Nat
deriving Repr, DecidableEq

/-- SensorData is the `data` member: the last decoded sensor snapshot
(reading, timestamp, raw status word). -/
structure SensorData where
  reading : Frac
  timestamp : Int
  raw : Int
deriving Repr, DecidableEq

structure Port where
  devtype : Nat
  init : Bool
  model : String
  serial : String
  dig_rev : String
  disp_rev : String
  brd_rev : String
  stats : Stats
  data : SensorData
deriving Repr, DecidableEq

/-! Status-word bit fields, decoded from the raw integer exactly as the C
bit-field union lays them out: bit 0 overflow, 1 filter, 2 math, 3 null,
4 limit test, 5-6 limit result, 7 overvoltage, 8 padding, 9 zero check,
10 zero correct. -/

def rawNat (r : Int) : Nat := (r % (2 ^ 32 : Int)).toNat

def bitOf (r : Int) (i : Nat) : Int := Int.ofNat ((rawNat r >>> i) % 2)

def limitTestBit (r : Int) : Int := bitOf r 4

def limitResultBits (r : Int) : Int := Int.ofNat ((rawNat r >>> 5) % 4)

/-! Outcomes and transport. `CRes.err` models a returned asynError;
`CRes.undefB` models C undefined behaviour (a null-pointer dereference or
the use of an indeterminate value), which has no defined result at all. -/

inductive CRes (α : Type) where
  | ok (a : α)
  | err
  | undefB
deriving Repr, DecidableEq

/-- Step packages a handler outcome: the asyn result, the port state after
the call, and the wire commands handed to the transport during the call
(in order). -/
structure Step (α : Type) where
  res : CRes α
  port : Port
  sent : List String
deriving Repr, DecidableEq

/-- Exchange is the behaviour of the external synchronous transport for one
operation: the status it reports, the byte count it claims to have
written, and the reply it produced (empty for a write-only operation). -/
structure Exchange where
  rok : Bool
  nWrite : Nat
  reply : String
deriving Repr, DecidableEq

/-- bumpIoErr increments the ioErrors statistic and changes nothing else. -/
def bumpIoErr (p : Port) : Port :=
  { p with stats := { p.stats with ioErrors := p.stats.ioErrors + 1 } }

/-- writeOnlyM models writeOnly: a fire-and-forget write. A transport error
or a short write (nActual different from strlen) counts one ioError;
success counts one writeOnly. -/
def writeOnlyM (x : Exchange) (cmd : String) (p : Port) : Step Unit :=
  if x.rok = false ∨ x.nWrite ≠ cmd.data.length then
    { res := .err, port := bumpIoErr p, sent := [cmd] }
  else
    { res := .ok (),
      port := { p with stats := { p.stats with writeOnlys := p.stats.writeOnlys + 1 } },
      sent := [cmd] }

/-- writeReadM models writeRead: write-then-read-until-terminator. A
transport error or a short write counts one ioError and the reply buffer is
not delivered; success counts one writeRead and yields the
null-terminated reply. -/
def writeReadM (x : Exchange) (cmd : String) (p : Port) : Step String :=
  if x.rok = false ∨ x.nWrite ≠ cmd.data.length then
    { res := .err, port := bumpIoErr p, sent := [cmd] }
  else
    { res := .ok x.reply,
      port := { p with stats := { p.stats with writeReads := p.stats.writeReads + 1 } },
      sent := [cmd] }

/-! Value kinds and typed values passed through the three asyn interfaces.
The numeric codes match the drivers' Type enum (Octet=1, Float64=2,
Int32=3). `Value.vnone` stands for an output parameter the handler never
wrote. -/

inductive VKind where
  | octet
  | float64
  | int32
deriving Repr, DecidableEq

def vkindCode : VKind → Nat
  | .octet => 1
  | .float64 => 2
  | .int32 => 3

inductive Value where
  | vnone
  | vstr (s : String)
  | vfloat (q : Frac)
  | vint (i : Int)
deriving Repr, DecidableEq

def Value.asInt : Value → Int
  | .vint i => i
  | _ => 0

def Value.asFloat : Value → Frac
  | .vfloat q => q
  | _ => ⟨0, 1⟩

def Value.asStr : Value → String
  | .vstr s => s
  | _ => ""

/-! readSensorReading (identical in both drivers): one READ? exchange,
then a tokenizing loop over the comma-separated reply. The source loop is

  for( pass = 0; pass < 3; pass++, str = NULL)
    { token[pass] = epicsStrtok_r(str, ",", &saveptr);
      if (token == NULL) break; }
  if( pass != 3) return asynError;

The break condition tests `token` — the address of the local array, which
is never null — instead of `token[pass]`, so the loop always completes
three passes, `pass` is always 3, and the asynError branch is dead. When
the reply holds fewer than three comma-separated fields, the later
`atof( token[i])` is passed the null pointer epicsStrtok_r returned. -/

def readSensorReadingM (iface : VKind) (x : Exchange) (p : Port) : Step Value :=
  let st := writeReadM x "READ?" p
  match st.res with
  | .ok reply =>
    let toks := strtokList reply.data ','
    match toks.get? 0, toks.get? 1, toks.get? 2 with
    | some t0, some t1, some t2 =>
      let p2 := { st.port with
                  data := { reading := atofChars t0,
                            timestamp := truncFrac (atofChars t1),
                            raw := truncFrac (atofChars t2) } }
      match iface with
      | .octet => { res := .ok (.vstr ⟨t0⟩), port := p2, sent := st.sent }
      | .float64 => { res := .ok (.vfloat p2.data.reading), port := p2, sent := st.sent }
      | .int32 => { res := .ok .vnone, port := p2, sent := st.sent }
    | _, _, _ =>
      { res := .undefB, port := st.port, sent := st.sent }
  | _ => { res := .err, port := st.port, sent := st.sent }

/-! readCache (identical in both drivers): cached parameters answered from
Port state with no I/O. Its `which` values are the CACHE command ids. -/

inductive CacheCmd where
  | TIMESTAMP
  | STATUS_RAW
  | STATUS_OVERFLOW
  | STATUS_FILTER
  | STATUS_MATH
  | STATUS_NULL
  | STATUS_LIMITS
  | STATUS_OVERVOLTAGE
  | STATUS_ZERO_CHECK
  | STATUS_ZERO_CORRECT
  | MODEL
  | SERIAL
  | DIG_REV
  | DISP_REV
  | BRD_REV
deriving Repr, DecidableEq

/-- charCache is the Octet branch's inner switch: it assigns the string
cache pointer only for the five identification commands and leaves the
initial NULL for every other `which`. -/
def charCache (which : CacheCmd) (p : Port) : Option String :=
  match which with
  | .MODEL => some p.model
  | .SERIAL => some p.serial
  | .DIG_REV => some p.dig_rev
  | .DISP_REV => some p.disp_rev
  | .BRD_REV => some p.brd_rev
  | _ => none

/-- readCacheOctet is readCache's Octet branch: strlen on the selected
cache string, then a copy truncated to 39 characters when it would
overflow an EPICS string. When `which` selected no string, `char_cache` is
still NULL and `strlen(char_cache)` dereferences it — `CRes.undefB`. The
pair carries the copied text and the reported length. -/
def readCacheOctet (which : CacheCmd) (p : Port) : CRes (String × Nat) :=
  match charCache which p with
  | none => .undefB
  | some s =>
    let len := s.data.length
    if len < 40 then .ok (s, len)
    else .ok (⟨s.data.take 39⟩, 39)

/-- readCacheInt32 is readCache's Int32 branch. `none` means the switch had
no case for `which`, so the output parameter is left untouched and the
call still returns asynSuccess. The STATUS_LIMITS case returns the stored
limit_result bits when the limit_test bit is set and the constant 3
otherwise. -/
def readCacheInt32 (which : CacheCmd) (p : Port) : Option Int :=
  match which with
  | .TIMESTAMP => some p.data.timestamp
  | .STATUS_RAW => some p.data.raw
  | .STATUS_OVERFLOW => some (bitOf p.data.raw 0)
  | .STATUS_FILTER => some (bitOf p.data.raw 1)
  | .STATUS_MATH => some (bitOf p.data.raw 2)
  | .STATUS_NULL => some (bitOf p.data.raw 3)
  | .STATUS_LIMITS =>
    if limitTestBit p.data.raw ≠ 0 then some (limitResultBits p.data.raw)
    else some 3
  | .STATUS_OVERVOLTAGE => some (bitOf p.data.raw 7)
  | .STATUS_ZERO_CHECK => some (bitOf p.data.raw 9)
  | .STATUS_ZERO_CORRECT => some (bitOf p.data.raw 10)
  | _ => none

/-- readCacheFloat64 is readCache's Float64 branch: the switch body is
commented out in both sources, so every call succeeds leaving the output
untouched. -/
def readCacheFloat64 (_which : CacheCmd) (_p : Port) : Option Frac := none

/-! Identification parsing during connection setup (identical in both
drivers). After strcpy of the *IDN? reply into `model`, the code runs

  serial = strchr( model, ',');
  serial = strchr( serial + 1, ',');   *serial = 0; serial++;
  dig_rev = strchr( serial, ',');      *dig_rev = 0; dig_rev++;
  disp_rev = strchr( dig_rev, '/');    *disp_rev = 0; disp_rev++;
  brd_rev = strchr( disp_rev, '/');    *brd_rev = 0; brd_rev++;

so `model` keeps everything before the SECOND comma (the device sends
Vendor,Model,Serial,digRev/dispRev/brdRev). No strchr result is checked:
a missing delimiter makes the next `strchr(p + 1, ...)` or `*p = 0`
dereference NULL. -/

structure IdnFields where
  model : String
  serial : String
  dig_rev : String
  disp_rev : String
  brd_rev : String
deriving Repr, DecidableEq

def parseIdnChars (reply : List Char) : CRes IdnFields :=
  match strchrSplit reply ',' with
  | none => .undefB
  | some (m1, rest1) =>
    match strchrSplit rest1 ',' with
    | none => .undefB
    | some (m2, rest2) =>
      match strchrSplit rest2 ',' with
      | none => .undefB
      | some (ser, rest3) =>
        match strchrSplit rest3 '/' with
        | none => .undefB
        | some (dig, rest4) =>
          match strchrSplit rest4 '/' with
          | none => .undefB
          | some (disp, brd) =>
            .ok { model := ⟨m1 ++ ',' :: m2⟩, serial := ⟨ser⟩,
                  dig_rev := ⟨dig⟩, disp_rev := ⟨disp⟩, brd_rev := ⟨brd⟩ }

def parseIdn (reply : String) : CRes IdnFields := parseIdnChars reply.data

/-! Range handlers (identical in both drivers). The range enumeration 0..7
maps to decade exponents -9..-2; the write formats `2.0e%d`, the read
locates the first uppercase `E` in the reply and maps the decimal exponent
after it back through `9 + atoi(p)`. -/

inductive RangeWhich where
  | RANGE
  | ULIMIT
  | LLIMIT
deriving Repr, DecidableEq

def rangeQuery : RangeWhich → String
  | .RANGE => ":RANGE?"
  | .ULIMIT => ":RANGE:AUTO:ULIM?"
  | .LLIMIT => ":RANGE:AUTO:LLIM?"

/-- readRangeDecode is readRange's Int32 decode of the device reply:
`strchr(inpBuf, 'E')` (uppercase, case-sensitive), asynError when absent,
otherwise 9 plus the atoi of the text after the marker. -/
def readRangeDecode (reply : String) : Option Int :=
  match strchrAfter reply.data 'E' with
  | none => none
  | some after => some (9 + atoiChars after)

def readRangeM (which : RangeWhich) (iface : VKind) (x : Exchange) (p : Port) :
    Step Value :=
  if iface = .octet then { res := .ok .vnone, port := p, sent := [] }
  else
    let st := writeReadM x (rangeQuery which) p
    match st.res with
    | .ok reply =>
      match iface with
      | .float64 =>
        let val := atof reply
        if val.isZero then { res := .err, port := st.port, sent := st.sent }
        else { res := .ok (.vfloat val), port := st.port, sent := st.sent }
      | .int32 =>
        match readRangeDecode reply with
        | none => { res := .err, port := st.port, sent := st.sent }
        | some v => { res := .ok (.vint v), port := st.port, sent := st.sent }
      | .octet => { res := .ok .vnone, port := st.port, sent := st.sent }
    | _ => { res := .err, port := st.port, sent := st.sent }

/-- writeRangeWire is writeRange's encoding: values outside 0..7 are
rejected (none, asynError), otherwise the command is formatted with
`sprintf( outBuf, "...2.0e%d", -9 + value)` — a lowercase `e`. -/
def writeRangeWire (which : RangeWhich) (value : Int) : Option String :=
  if value < 0 ∨ 7 < value then none
  else
    some (match which with
      | .RANGE => ":RANGE 2.0e" ++ toString (-9 + value)
      | .ULIMIT => ":RANGE:AUTO:ULIM 2.0e" ++ toString (-9 + value)
      | .LLIMIT => ":RANGE:AUTO:LLIM 2.0e" ++ toString (-9 + value))

def writeRangeM (which : RangeWhich) (iface : VKind) (v : Value) (x : Exchange)
    (p : Port) : Step Unit :=
  if iface ≠ .int32 then { res := .ok (), port := p, sent := [] }
  else
    match writeRangeWire which v.asInt with
    | none => { res := .err, port := p, sent := [] }
    | some cmd => writeOnlyM x cmd p

/-! Rate handlers. The write maps the enumeration 0,1,2 to the NPLC
constants 6.0, 1.0, 0.1 and rejects anything else. The read queries :NPLC?
and classifies the parsed value. The two drivers differ in one token of
the classification: the 648x medium branch tests `val > 0.1`, while the
6485 medium branch tests `rate > 0.1` — `rate` being the still
uninitialized local the result is about to be stored into. -/

/-- classifyRate648x is the 648x readRate classification of the parsed
NPLC value: above 1.0 slow (0), else above 0.1 medium (1), else fast (2). -/
def classifyRate648x (val : Frac) : Int :=
  if Frac.mk 1 1 < val then 0
  else if Frac.mk 1 10 < val then 1
  else 2

/-- classifyRate6485 is the 6485 readRate classification; `rate0` is the
indeterminate initial value of the local `rate` that the medium branch
reads (`else if( rate > 0.1)`) in place of `val`. -/
def classifyRate6485 (val : Frac) (rate0 : Int) : Int :=
  if Frac.mk 1 1 < val then 0
  else if Frac.mk 1 10 < Frac.ofInt rate0 then 1
  else 2

def readRateM648x (iface : VKind) (x : Exchange) (p : Port) : Step Value :=
  if iface ≠ .int32 then { res := .ok .vnone, port := p, sent := [] }
  else
    let st := writeReadM x ":NPLC?" p
    match st.res with
    | .ok reply =>
      { res := .ok (.vint (classifyRate648x (atof reply))), port := st.port,
        sent := st.sent }
    | _ => { res := .err, port := st.port, sent := st.sent }

def readRateM6485 (rate0 : Int) (iface : VKind) (x : Exchange) (p : Port) :
    Step Value :=
  if iface ≠ .int32 then { res := .ok .vnone, port := p, sent := [] }
  else
    let st := writeReadM x ":NPLC?" p
    match st.res with
    | .ok reply =>
      { res := .ok (.vint (classifyRate6485 (atof reply) rate0)),
        port := st.port, sent := st.sent }
    | _ => { res := .err, port := st.port, sent := st.sent }

/-- nplcOfRate is writeRate's mapping from the rate enumeration to the NPLC
constant sent to the device; values outside 0..2 are rejected. The 648x
variant adds a default case assigning 1.0, unreachable behind the same
guard. -/
def nplcOfRate (rate : Int) : Option Frac :=
  if rate < 0 ∨ 2 < rate then none
  else some (if rate = 0 then ⟨6, 1⟩ else if rate = 1 then ⟨1, 1⟩ else ⟨1, 10⟩)

/-- padZeros left-pads a digit string with zeros to width `k`. -/
def padZeros (s : String) (k : Nat) : String :=
  ⟨List.replicate (k - s.data.length) '0' ++ s.data⟩

/-- fmtG models the C `%g` conversion on the exact short decimals the
drivers pass to it (the NPLC constants 6.0, 1.0, 0.1 and the 0/1 toggles):
an integer prints without a point, otherwise the value prints with the
fewest decimal places that render it exactly. The general %g
six-significant-digit rounding is never exercised by the drivers. -/
def fmtG (q : Frac) : String :=
  let sgn := if q.num * q.den < 0 then "-" else ""
  let n := q.num.natAbs
  let d := q.den.natAbs
  match (List.range 7).find? (fun k => d ∣ n * 10 ^ k) with
  | some k =>
    let scaled := n * 10 ^ k / d
    if k = 0 then sgn ++ toString scaled
    else
      sgn ++ toString (scaled / 10 ^ k) ++ "." ++
        padZeros (toString (scaled % 10 ^ k)) k
  | none => sgn ++ toString n ++ "/" ++ toString d

def writeRateM (iface : VKind) (v : Value) (x : Exchange) (p : Port) :
    Step Unit :=
  if iface ≠ .int32 then { res := .ok (), port := p, sent := [] }
  else
    match nplcOfRate v.asInt with
    | none => { res := .err, port := p, sent := [] }
    | some val => writeOnlyM x (":NPLC " ++ fmtG val) p

/-! readCommon/writeCommon (648x only): the averaging time-constant control
AVER:TCON with tokens MOV (0) and REP (1). Their switch handles only
DIGITAL_FILTER_CONTROL_CMD (gen id 6); for the other id routed to them
(VOLT_RANGE, gen id 7) the switch falls through and the code then uses an
uninitialized local (`val` on read, `outBuf` on write) — undefined
behaviour, modelled as `CRes.undefB`. -/

def readCommonM (which : Nat) (iface : VKind) (x : Exchange) (p : Port) :
    Step Value :=
  if iface ≠ .int32 then { res := .ok .vnone, port := p, sent := [] }
  else if which = 6 then
    let st := writeReadM x "AVER:TCON?" p
    match st.res with
    | .ok reply =>
      if reply = "MOV" then { res := .ok (.vint 0), port := st.port, sent := st.sent }
      else if reply = "REP" then { res := .ok (.vint 1), port := st.port, sent := st.sent }
      else { res := .err, port := st.port, sent := st.sent }
    | _ => { res := .err, port := st.port, sent := st.sent }
  else { res := .undefB, port := p, sent := [] }

def writeCommonM (which : Nat) (iface : VKind) (v : Value) (x : Exchange)
    (p : Port) : Step Unit :=
  if iface ≠ .int32 then { res := .ok (), port := p, sent := [] }
  else if which = 6 then
    if v.asInt = 0 then writeOnlyM x "AVER:TCON MOV" p
    else if v.asInt = 1 then writeOnlyM x "AVER:TCON REP" p
    else { res := .err, port := p, sent := [] }
  else { res := .undefB, port := p, sent := [] }

/-! Simple handlers: table-driven `CMD?` query and `CMD value` write. An
entry type of 0 marks a pure trigger; otherwise the type is the Type enum
code of the entry's native value kind. -/

structure SimpleCmd where
  stype : Nat
  cmd : String
deriving Repr, DecidableEq

def simpleTable6485 : List SimpleCmd :=
  [⟨3, ":RANGE:AUTO"⟩,
   ⟨3, "SYST:ZCH"⟩,
   ⟨3, "SYST:ZCOR"⟩,
   ⟨0, "SYST:ZCOR:ACQ"⟩]

def simpleTable648x : List SimpleCmd :=
  [⟨0, "*RST"⟩,
   ⟨3, ":RANGE:AUTO"⟩,
   ⟨3, "SYST:ZCH"⟩,
   ⟨3, "SYST:ZCOR"⟩,
   ⟨0, "SYST:ZCOR:ACQ"⟩,
   ⟨3, "MED"⟩,
   ⟨3, "MED:RANK"⟩,
   ⟨3, "AVER"⟩,
   ⟨3, "AVER:COUN"⟩]

/-- readSimpleDataM models readSimpleData: a requested kind different from
the entry's declared type (triggers included) returns asynSuccess at once
with no exchange and the output untouched; otherwise the reply to `CMD?`
is parsed by kind, the text case truncated to 39 characters. -/
def readSimpleDataM (sc : SimpleCmd) (iface : VKind) (x : Exchange) (p : Port) :
    Step Value :=
  if sc.stype ≠ vkindCode iface then { res := .ok .vnone, port := p, sent := [] }
  else
    let st := writeReadM x (sc.cmd ++ "?") p
    match st.res with
    | .ok reply =>
      match iface with
      | .float64 => { res := .ok (.vfloat (atof reply)), port := st.port, sent := st.sent }
      | .int32 => { res := .ok (.vint (atoi reply)), port := st.port, sent := st.sent }
      | .octet =>
        let out := if 39 < reply.data.length then (⟨reply.data.take 39⟩ : String) else reply
        { res := .ok (.vstr out), port := st.port, sent := st.sent }
    | _ => { res := .err, port := st.port, sent := st.sent }

/-- writeSimpleDataM models writeSimpleData: a trigger entry always sends
its bare command whatever the kind; otherwise a kind mismatched to the
entry's type returns asynSuccess with no exchange, and a match formats
`CMD value` (int %d, float %g, text verbatim). -/
def writeSimpleDataM (sc : SimpleCmd) (iface : VKind) (v : Value) (x : Exchange)
    (p : Port) : Step Unit :=
  if sc.stype = 0 then writeOnlyM x sc.cmd p
  else if sc.stype ≠ vkindCode iface then { res := .ok (), port := p, sent := [] }
  else
    let cmd :=
      match iface with
      | .float64 => sc.cmd ++ " " ++ fmtG v.asFloat
      | .int32 => sc.cmd ++ " " ++ toString v.asInt
      | .octet => sc.cmd ++ " " ++ v.asStr
    writeOnlyM x cmd p

/-- writeDummyM models writeDummy: unconditional asynSuccess, no I/O. -/
def writeDummyM (_iface : VKind) (_v : Value) (_x : Exchange) (p : Port) :
    Step Unit :=
  { res := .ok (), port := p, sent := [] }

/-! Command registry tables. Family is the dispatch strategy tag
(GEN/SIMPLE/CACHE command types); ids index the family's handler table.
The cache ids follow the CACHE enum order TIMESTAMP=0 .. BRD_REV=14. -/

inductive Family where
  | gen
  | simple
  | cache
deriving Repr, DecidableEq

structure Cmd6485 where
  tag : String
  ctype : Family
  id : Nat
deriving Repr, DecidableEq

def commandTable6485 : List Cmd6485 :=
  [⟨"VOID", .gen, 0⟩,
   ⟨"READ", .gen, 1⟩,
   ⟨"RANGE", .gen, 2⟩,
   ⟨"RANGE_AUTO_ULIMIT", .gen, 3⟩,
   ⟨"RANGE_AUTO_LLIMIT", .gen, 4⟩,
   ⟨"RATE", .gen, 5⟩,
   ⟨"RANGE_AUTO", .simple, 0⟩,
   ⟨"ZERO_CHECK", .simple, 1⟩,
   ⟨"ZERO_CORRECT", .simple, 2⟩,
   ⟨"ZERO_CORRECT_ACQUIRE", .simple, 3⟩,
   ⟨"MODEL", .cache, 10⟩,
   ⟨"SERIAL", .cache, 11⟩,
   ⟨"DIG_REV", .cache, 12⟩,
   ⟨"DISP_REV", .cache, 13⟩,
   ⟨"BRD_REV", .cache, 14⟩,
   ⟨"TIMESTAMP", .cache, 0⟩,
   ⟨"STATUS_RAW", .cache, 1⟩,
   ⟨"STATUS_OVERFLOW", .cache, 2⟩,
   ⟨"STATUS_FILTER", .cache, 3⟩,
   ⟨"STATUS_MATH", .cache, 4⟩,
   ⟨"STATUS_NULL", .cache, 5⟩,
   ⟨"STATUS_LIMITS", .cache, 6⟩,
   ⟨"STATUS_OVERVOLTAGE", .cache, 7⟩,
   ⟨"STATUS_ZERO_CHECK", .cache, 8⟩,
   ⟨"STATUS_ZERO_CORRECT", .cache, 9⟩]

/-- Cmd648x adds the 648x per-device gating field: dev 0 is DEV_ALL, 1 is
DEV_6485, 2 is DEV_6487. -/
structure Cmd648x where
  tag : String
  dev : Nat
  ctype : Family
  id : Nat
deriving Repr, DecidableEq

def commandTable648x : List Cmd648x :=
  [⟨"VOID", 0, .gen, 0⟩,
   ⟨"READ", 0, .gen, 1⟩,
   ⟨"RANGE", 0, .gen, 2⟩,
   ⟨"RANGE_AUTO_ULIMIT", 0, .gen, 3⟩,
   ⟨"RANGE_AUTO_LLIMIT", 0, .gen, 4⟩,
   ⟨"RATE", 0, .gen, 5⟩,
   ⟨"DIGITAL_FILTER_CONTROL", 0, .gen, 6⟩,
   ⟨"VOLT_RANGE", 2, .gen, 7⟩,
   ⟨"RESET", 0, .simple, 0⟩,
   ⟨"RANGE_AUTO", 0, .simple, 1⟩,
   ⟨"ZERO_CHECK", 0, .simple, 2⟩,
   ⟨"ZERO_CORRECT", 0, .simple, 3⟩,
   ⟨"ZERO_CORRECT_ACQUIRE", 0, .simple, 4⟩,
   ⟨"MEDIAN_FILTER", 0, .simple, 5⟩,
   ⟨"MEDIAN_FILTER_RANK", 0, .simple, 6⟩,
   ⟨"DIGITAL_FILTER", 0, .simple, 7⟩,
   ⟨"DIGITAL_FILTER_COUNT", 0, .simple, 8⟩,
   ⟨"MODEL", 0, .cache, 10⟩,
   ⟨"SERIAL", 0, .cache, 11⟩,
   ⟨"DIG_REV", 0, .cache, 12⟩,
   ⟨"DISP_REV", 0, .cache, 13⟩,
   ⟨"BRD_REV", 0, .cache, 14⟩,
   ⟨"TIMESTAMP", 0, .cache, 0⟩,
   ⟨"STATUS_RAW", 0, .cache, 1⟩,
   ⟨"STATUS_OVERFLOW", 0, .cache, 2⟩,
   ⟨"STATUS_FILTER", 0, .cache, 3⟩,
   ⟨"STATUS_MATH", 0, .cache, 4⟩,
   ⟨"STATUS_NULL", 0, .cache, 5⟩,
   ⟨"STATUS_LIMITS", 0, .cache, 6⟩,
   ⟨"STATUS_OVERVOLTAGE", 0, .cache, 7⟩,
   ⟨"STATUS_ZERO_CHECK", 0, .cache, 8⟩,
   ⟨"STATUS_ZERO_CORRECT", 0, .cache, 9⟩]

/-- genWrite6485 is the writeFunc column of the 6485 genCommandTable:
VOID and READ write with writeDummy, the three RANGE rows with writeRange,
RATE with writeRate. -/
def genWrite6485 (id : Nat) (iface : VKind) (v : Value) (x : Exchange)
    (p : Port) : Step Unit :=
  match id with
  | 0 => writeDummyM iface v x p
  | 1 => writeDummyM iface v x p
  | 2 => writeRangeM .RANGE iface v x p
  | 3 => writeRangeM .ULIMIT iface v x p
  | 4 => writeRangeM .LLIMIT iface v x p
  | _ => writeRateM iface v x p

/-- genWrite648x adds the two writeCommon rows (gen ids 6 and 7). -/
def genWrite648x (id : Nat) (iface : VKind) (v : Value) (x : Exchange)
    (p : Port) : Step Unit :=
  match id with
  | 0 => writeDummyM iface v x p
  | 1 => writeDummyM iface v x p
  | 2 => writeRangeM .RANGE iface v x p
  | 3 => writeRangeM .ULIMIT iface v x p
  | 4 => writeRangeM .LLIMIT iface v x p
  | 5 => writeRateM iface v x p
  | n => writeCommonM n iface v x p

/-! Write dispatch: writeInt32/writeFloat64/writeOctet share one shape —
refuse when init is 0, then switch on the command type; the switch has no
CACHE case, so cached parameters fall through to the final
`return asynSuccess` with no I/O and no state change. `which` is always a
valid index because asynDrvUser create sets the reason from the table. -/

def writeM6485 (iface : VKind) (which : Nat) (v : Value) (x : Exchange)
    (p : Port) : Step Unit :=
  let e := commandTable6485.getD which ⟨"VOID", .gen, 0⟩
  if p.init = false then { res := .err, port := p, sent := [] }
  else
    match e.ctype with
    | .gen => genWrite6485 e.id iface v x p
    | .simple => writeSimpleDataM (simpleTable6485.getD e.id ⟨0, ""⟩) iface v x p
    | .cache => { res := .ok (), port := p, sent := [] }

def writeM648x (iface : VKind) (which : Nat) (v : Value) (x : Exchange)
    (p : Port) : Step Unit :=
  let e := commandTable648x.getD which ⟨"VOID", 0, .gen, 0⟩
  if p.init = false then { res := .err, port := p, sent := [] }
  else
    match e.ctype with
    | .gen => genWrite648x e.id iface v x p
    | .simple => writeSimpleDataM (simpleTable648x.getD e.id ⟨0, ""⟩) iface v x p
    | .cache => { res := .ok (), port := p, sent := [] }

/-! asynDrvUser create for the 648x driver: case-insensitive scan of the
command table; on a tag match whose dev gate excludes the connection's
devtype the call logs a wrong-device message, zeroes the reason and
returns asynError; when the scan runs off the table it logs a
tag-not-found message, zeroes the reason and returns asynError. The value
pair returned to the caller is (status ok?, reason). -/

def toLowerC (c : Char) : Char :=
  if decide ('A' ≤ c) && decide (c ≤ 'Z') then Char.ofNat (c.toNat + 32) else c

/-- strCaseEq models epicsStrCaseCmp returning 0. -/
def strCaseEq (a b : String) : Bool :=
  a.data.map toLowerC = b.data.map toLowerC

def createScan (drvInfo : String) (devtype : Nat) :
    List Cmd648x → Nat → (Bool × Nat)
  | [], _ => (false, 0)
  | e :: rest, i =>
    if strCaseEq drvInfo e.tag then
      if e.dev ≠ 0 ∧ e.dev ≠ devtype then (false, 0)
      else (true, i)
    else createScan drvInfo devtype rest (i + 1)

def createM (drvInfo : String) (devtype : Nat) : Bool × Nat :=
  createScan drvInfo devtype commandTable648x 0

/-- lookupTagScan is the first case-insensitive tag match in a table
segment, used to state which registry row a create call resolves. -/
def lookupTagScan (drvInfo : String) : List Cmd648x → Option Cmd648x
  | [] => none
  | e :: rest =>
    if strCaseEq drvInfo e.tag then some e else lookupTagScan drvInfo rest

def lookupTag (drvInfo : String) : Option Cmd648x :=
  lookupTagScan drvInfo commandTable648x

/-! Concrete fixtures used by witnesses and counterexamples. -/

/-- examplePort is a ready connection populated the way setup leaves it
after parsing a vendor-prefixed identification reply, with a nonzero
sensor snapshot on record. -/
def examplePort : Port :=
  { devtype := 1, init := true,
    model := "KEITHLEY,MODEL6485", serial := "SN001",
    dig_rev := "A1", disp_rev := "B2", brd_rev := "C3",
    stats := ⟨0, 0, 0⟩,
    data := { reading := ⟨3, 2⟩, timestamp := 12345, raw := 96 } }

/-- limitPort64 stores raw status 64: limit_result bits 10 (limit-2 fail)
with the limit_test bit clear. -/
def limitPort64 : Port :=
  { examplePort with data := { examplePort.data with raw := 64 } }

/-- exFail is a transport outcome that reports failure. -/
def exFail : Exchange := ⟨false, 0, ""⟩

/-! Claim theorems. -/

/-- C1: the claim says a sensor-read reply that does not split into exactly
three comma-separated numeric fields yields a MalformedReply error with
last_reading untouched. In the code the field-count guard is dead — the
loop's break tests the token array pointer (never null) instead of the
token — so the two-field reply "abc,def" is not rejected: atof is handed
the null third token (undefined behaviour, not an error return), and a
four-field reply is accepted outright and overwrites last_reading. -/
theorem c1_sensor_malformed_reply_bug :
    (readSensorReadingM .float64 ⟨true, 5, "abc,def"⟩ examplePort).res
        = CRes.undefB ∧
    (readSensorReadingM .float64 ⟨true, 5, "7.25,2,3,junk"⟩ examplePort).res
        ≠ CRes.err ∧
    (readSensorReadingM .float64 ⟨true, 5, "7.25,2,3,junk"⟩ examplePort).port.data
        ≠ examplePort.data := by decide

/-- C2 counterexample: the claim's identification reply
"MODEL6485,SN001,A1/B2/C3" does not produce the five claimed fields — the
parser consumes two commas before terminating the model field, so this
two-comma reply sends the third strchr hunting for a comma that is not
there and the null result is dereferenced. -/
theorem c2_idn_two_comma_counterexample :
    parseIdn "MODEL6485,SN001,A1/B2/C3" = CRes.undefB := by decide

/-- C2 amended: the identification parser expects the vendor-prefixed
format Vendor,Model,Serial,digRev/dispRev/brdRev; everything before the
second comma (vendor and model together) becomes the model field and the
remaining fields follow. -/
theorem c2_idn_vendor_prefixed_parse :
    parseIdn "KEITHLEY,MODEL6485,SN001,A1/B2/C3"
      = CRes.ok ⟨"KEITHLEY,MODEL6485", "SN001", "A1", "B2", "C3"⟩ := by decide

/-- C3 counterexample: encoding range value 0 produces ":RANGE 2.0e-9"
with a lowercase exponent marker, and the read decoder — which searches
for an uppercase E — fails on that very fragment instead of returning 0. -/
theorem c3_range_roundtrip_counterexample :
    writeRangeWire .RANGE 0 = some ":RANGE 2.0e-9" ∧
    readRangeDecode "2.0e-9" = none := by decide

/-- C3 amended: the round trip holds once the exponent marker is the
uppercase E the decoder looks for (the form the instrument itself echoes):
for every v in 0..7 decoding 2.0E(v-9) via 9 + exponent yields v. -/
theorem c3_range_roundtrip_uppercase :
    ∀ v : Fin 8,
      readRangeDecode ("2.0E" ++ toString ((v : Int) - 9)) = some (v : Int) := by
  decide

/-- C4: the rate write sends NPLC 6.0, 1.0, 0.1 for 0, 1, 2, and the
documented threshold classification — implemented by the 648x readRate —
round-trips all three. The 6485 readRate instead compares the
uninitialized local `rate` in its medium branch, so classifying the
written constant 1.0 returns 2 (fast) or 1 (medium) depending on the
garbage initially in that cell: the code diverges from the documented
rule the claim states. -/
theorem c4_rate_classification_bug :
    nplcOfRate 0 = some ⟨6, 1⟩ ∧
    nplcOfRate 1 = some ⟨1, 1⟩ ∧
    nplcOfRate 2 = some ⟨1, 10⟩ ∧
    (∀ v : Fin 3, classifyRate648x ((nplcOfRate (v : Int)).getD ⟨0, 1⟩) = (v : Int)) ∧
    classifyRate6485 ⟨1, 1⟩ 0 = 2 ∧
    classifyRate6485 ⟨1, 1⟩ 1 = 1 := by decide

/-- C5 counterexample: with stored raw status 64 the limit_test bit is 0
and the limit_result bits read 2, yet the cached limit-result read returns
3 — not the claimed all-pass code 0 of the 2-bit encoding. -/
theorem c5_limit_disabled_counterexample :
    readCacheInt32 .STATUS_LIMITS limitPort64 = some 3 ∧
    limitTestBit limitPort64.data.raw = 0 ∧
    limitResultBits limitPort64.data.raw = 2 ∧
    (3 : Int) ≠ 0 := by decide

/-- C5 amended: whenever the stored status word has the limit-test bit
clear, the integer cached read of the limit-result parameter returns the
out-of-band constant 3 (no test active), regardless of the stored
limit_result bits. -/
theorem c5_limit_disabled_returns_sentinel (p : Port)
    (h : limitTestBit p.data.raw = 0) :
    readCacheInt32 .STATUS_LIMITS p = some 3 := by
  simp [readCacheInt32, h]

/-- C5 witness: the amended theorem applied at the concrete port whose raw
status is 64. -/
theorem c5_limit_disabled_returns_sentinel_witness :
    limitTestBit limitPort64.data.raw = 0 ∧
    readCacheInt32 .STATUS_LIMITS limitPort64 = some 3 :=
  ⟨by decide, c5_limit_disabled_returns_sentinel limitPort64 (by decide)⟩

/-- C6 counterexample: a text-kind cached read of the integer-native
timestamp parameter leaves the string cache pointer NULL and hands it to
strlen — undefined behaviour, not the claimed well-defined silent
success. -/
theorem c6_octet_cache_read_counterexample :
    readCacheOctet .TIMESTAMP examplePort = CRes.undefB := by decide

/-- C6 amended: kind-mismatched simple-family reads and non-trigger writes
return success with no exchange, no state change and the output left
untouched (not a zero default); float-kind cached reads and integer-kind
cached reads of string parameters likewise succeed leaving the output
untouched; but a text-kind cached read of an integer-native parameter
such as the timestamp dereferences a null pointer instead of completing. -/
theorem c6_kind_mismatch_noop :
    (∀ sc : SimpleCmd, ∀ iface x p, sc.stype ≠ vkindCode iface →
        readSimpleDataM sc iface x p = ⟨.ok .vnone, p, []⟩) ∧
    (∀ sc : SimpleCmd, ∀ iface v x p, sc.stype ≠ 0 → sc.stype ≠ vkindCode iface →
        writeSimpleDataM sc iface v x p = ⟨.ok (), p, []⟩) ∧
    (∀ which p, readCacheFloat64 which p = none) ∧
    (∀ p, readCacheInt32 .MODEL p = none) ∧
    (∀ p, readCacheOctet .TIMESTAMP p = CRes.undefB) := by
  refine ⟨?_, ?_, ?_, ?_, ?_⟩
  · intro sc iface x p h
    unfold readSimpleDataM
    rw [if_pos h]
  · intro sc iface v x p h0 h
    unfold writeSimpleDataM
    rw [if_neg h0, if_pos h]
  · intro which p; rfl
  · intro p; rfl
  · intro p; rfl

/-- C6 witness: the amended theorem applied to a text-kind access of the
integer-typed zero-check toggle. -/
theorem c6_kind_mismatch_noop_witness :
    readSimpleDataM ⟨3, "SYST:ZCH"⟩ .octet exFail examplePort
        = ⟨.ok .vnone, examplePort, []⟩ ∧
    writeSimpleDataM ⟨3, "SYST:ZCH"⟩ .octet (.vstr "1") exFail examplePort
        = ⟨.ok (), examplePort, []⟩ :=
  ⟨c6_kind_mismatch_noop.1 ⟨3, "SYST:ZCH"⟩ .octet exFail examplePort (by decide),
   c6_kind_mismatch_noop.2.1 ⟨3, "SYST:ZCH"⟩ .octet (.vstr "1") exFail examplePort
     (by decide) (by decide)⟩

/-- C7 counterexample: the delimiterless identification reply "MODEL6485"
does not produce a reported setup failure — the splitting step
dereferences the null strchr result, which is a crash, not the error
return the claim promises. -/
theorem c7_idn_missing_delimiter_counterexample :
    parseIdn "MODEL6485" = CRes.undefB ∧
    (CRes.undefB : CRes IdnFields) ≠ CRes.err := by decide

/-- C7 amended: the identification splitting step has no failure-reporting
path at all — every reply either parses into the five fields or drives an
unchecked strchr result into a null dereference. -/
theorem c7_idn_no_failure_report (s : String) :
    (∃ f, parseIdn s = CRes.ok f) ∨ parseIdn s = CRes.undefB := by
  unfold parseIdn parseIdnChars
  cases strchrSplit s.data ',' with
  | none => exact Or.inr rfl
  | some pr1 =>
    obtain ⟨m1, r1⟩ := pr1
    dsimp only
    cases strchrSplit r1 ',' with
    | none => exact Or.inr rfl
    | some pr2 =>
      obtain ⟨m2, r2⟩ := pr2
      dsimp only
      cases strchrSplit r2 ',' with
      | none => exact Or.inr rfl
      | some pr3 =>
        obtain ⟨ser, r3⟩ := pr3
        dsimp only
        cases strchrSplit r3 '/' with
        | none => exact Or.inr rfl
        | some pr4 =>
          obtain ⟨dig, r4⟩ := pr4
          dsimp only
          cases strchrSplit r4 '/' with
          | none => exact Or.inr rfl
          | some pr5 =>
            obtain ⟨disp, brd⟩ := pr5
            exact Or.inl ⟨_, rfl⟩

/-- createScanSpec relates the create scan to the first case-insensitive
table match: a match whose device gate excludes the connection, and no
match at all, both end in (asynError, reason 0). -/
theorem createScanSpec (d : String) (dt : Nat) (l : List Cmd648x) (i : Nat) :
    (∀ e, lookupTagScan d l = some e → e.dev ≠ 0 →
        e.dev ≠ dt → createScan d dt l i = (false, 0)) ∧
    (lookupTagScan d l = none → createScan d dt l i = (false, 0)) := by
  induction l generalizing i with
  | nil => simp [createScan, lookupTagScan]
  | cons a rest ih =>
    cases h : strCaseEq d a.tag with
    | true =>
      refine ⟨?_, ?_⟩
      · intro e he hd hdt
        simp [lookupTagScan, h] at he
        subst he
        simp [createScan, h, hd, hdt]
      · intro he
        simp [lookupTagScan, h] at he
    | false =>
      refine ⟨?_, ?_⟩
      · intro e he hd hdt
        simp [lookupTagScan, h] at he
        simpa [createScan, h] using (ih (i + 1)).1 e he hd hdt
      · intro he
        simp [lookupTagScan, h] at he
        simpa [createScan, h] using (ih (i + 1)).2 he

/-- C8 counterexample: resolving VOLT_RANGE on a 6485 connection (the row
exists, gated to device 2) returns exactly the same observable result —
asynError with reason 0 — as resolving a name that is not in the table, so
the caller cannot tell the wrong-variant condition from not-found. -/
theorem c8_wrong_variant_counterexample :
    lookupTag "VOLT_RANGE" = some ⟨"VOLT_RANGE", 2, Family.gen, 7⟩ ∧
    createM "VOLT_RANGE" 1 = (false, 0) ∧
    createM "NO_SUCH_TAG" 1 = (false, 0) ∧
    createM "VOLT_RANGE" 1 = createM "NO_SUCH_TAG" 1 := by decide

/-- C8 amended: a wrong-variant lookup does fail at bind time, but only
the logged diagnostic distinguishes it: the value returned to the caller
is (asynError, reason 0) for a variant-excluded match exactly as for an
unknown name. -/
theorem c8_wrong_variant_same_failure (drvInfo : String) (devtype : Nat) :
    (∀ e, lookupTag drvInfo = some e → e.dev ≠ 0 → e.dev ≠ devtype →
        createM drvInfo devtype = (false, 0)) ∧
    (lookupTag drvInfo = none → createM drvInfo devtype = (false, 0)) :=
  createScanSpec drvInfo devtype commandTable648x 0

/-- C8 witness: the amended theorem applied to VOLT_RANGE on a 6485
connection and to an absent tag. -/
theorem c8_wrong_variant_same_failure_witness :
    createM "VOLT_RANGE" 1 = (false, 0) ∧ createM "XYZZY" 1 = (false, 0) :=
  ⟨(c8_wrong_variant_same_failure "VOLT_RANGE" 1).1 ⟨"VOLT_RANGE", 2, .gen, 7⟩
      (by decide) (by decide) (by decide),
   (c8_wrong_variant_same_failure "XYZZY" 1).2 (by decide)⟩

/-- C9: a failed transport exchange — reported error or short write —
increments ioErrors exactly once, leaves last_reading (data) untouched in
both transport wrappers, and the sensor-read handler propagates such a
failure without touching the snapshot. -/
theorem c9_transport_failure_frame (x : Exchange) (cmd : String) (p : Port)
    (iface : VKind) (h : x.rok = false ∨ x.nWrite ≠ cmd.data.length) :
    writeReadM x cmd p = ⟨.err, bumpIoErr p, [cmd]⟩ ∧
    writeOnlyM x cmd p = ⟨.err, bumpIoErr p, [cmd]⟩ ∧
    (cmd = "READ?" →
        readSensorReadingM iface x p = ⟨.err, bumpIoErr p, ["READ?"]⟩) ∧
    (bumpIoErr p).data = p.data ∧
    (bumpIoErr p).stats.ioErrors = p.stats.ioErrors + 1 := by
  have h1 : writeReadM x cmd p = ⟨.err, bumpIoErr p, [cmd]⟩ := by
    unfold writeReadM
    rw [if_pos h]
  refine ⟨h1, ?_, ?_, rfl, rfl⟩
  · unfold writeOnlyM
    rw [if_pos h]
  · intro hc
    subst hc
    unfold readSensorReadingM
    rw [h1]

/-- C9 witness: the theorem applied to a reported transport failure on the
sensor query. -/
theorem c9_transport_failure_frame_witness :
    (exFail.rok = false ∨ exFail.nWrite ≠ "READ?".data.length) ∧
    writeReadM exFail "READ?" examplePort
        = ⟨.err, bumpIoErr examplePort, ["READ?"]⟩ :=
  ⟨Or.inl rfl,
   (c9_transport_failure_frame exFail "READ?" examplePort .float64 (Or.inl rfl)).1⟩

/-- C10: on a ready connection, a write of any kind to a cache-family
(read-only) parameter falls through the dispatch switch — which has no
CACHE case — returning asynSuccess with no wire command issued and the
port state identical, in both drivers. -/
theorem c10_cache_write_noop (iface : VKind) (which : Nat) (v : Value)
    (x : Exchange) (p : Port) (hp : p.init = true) :
    ((commandTable6485.getD which ⟨"VOID", .gen, 0⟩).ctype = Family.cache →
        writeM6485 iface which v x p = ⟨.ok (), p, []⟩) ∧
    ((commandTable648x.getD which ⟨"VOID", 0, .gen, 0⟩).ctype = Family.cache →
        writeM648x iface which v x p = ⟨.ok (), p, []⟩) := by
  constructor
  · intro hc
    simp only [writeM6485]
    rw [hp, if_neg (by decide : ¬ (true = false)), hc]
  · intro hc
    simp only [writeM648x]
    rw [hp, if_neg (by decide : ¬ (true = false)), hc]

/-- C10 witness: the theorem applied at table index 17 (STATUS_OVERFLOW in
the 6485 table, MODEL in the 648x table — cache rows in both). -/
theorem c10_cache_write_noop_witness :
    writeM6485 .int32 17 (.vint 5) exFail examplePort
        = ⟨.ok (), examplePort, []⟩ ∧
    writeM648x .int32 17 (.vint 5) exFail examplePort
        = ⟨.ok (), examplePort, []⟩ :=
  ⟨(c10_cache_write_noop .int32 17 (.vint 5) exFail examplePort rfl).1 (by decide),
   (c10_cache_write_noop .int32 17 (.vint 5) exFail examplePort rfl).2 (by decide)⟩

end Keithley
